import Mathlib

/-!
Verification of `samcli/local/docker/manager.py`: the `DockerContainerPool`
bookkeeping class and the `ContainerManager` run/stop orchestration.

The pool state mirrors the Python object: `_free_containers` is a dict from
runtime class to a set of container ids (`freeKeys` records which classes are
present as dict keys, `free` gives each class's set, empty for absent keys),
and `_containers` is the membership index dict from container id to its
recorded runtime class (`containers`, `none` for absent keys).

Python `set.pop` removes and returns an arbitrary element, so
`claim_container` is modelled relationally: `claimCanReturn p rt r` says that
`r` is a result the Python call may produce on state `p`, and
`pool_after_claim p rt r` is the state after that result (the popped element
is removed; a `None` result leaves the state unchanged, the `KeyError` being
caught inside the method).

Operations that in Python look a key up with falsy/`KeyError` semantics are
transcribed with those semantics: `deregister_container` and
`release_container` return early when the recorded runtime is falsy (absent
id, or the empty-string class), and `has_available_containers` returns
`none` to model the uncaught `KeyError` raised when the class was never a
key of `_free_containers`.
-/

/-- `_DEFAULT_POOL_LIMIT = 4` from manager.py. -/
def DEFAULT_POOL_LIMIT : Nat := 4

/-- State of a `DockerContainerPool` instance. -/
structure PoolState where
  pool_limit : Nat
  keep_empty : Bool
  freeKeys : Finset String
  free : String → Finset String
  containers : String → Option String

/-- `DockerContainerPool.__init__(size_limit)`: empty dicts,
`_keep_empty = size_limit == 0`. -/
def DockerContainerPool.init (size_limit : Nat) : PoolState :=
  { pool_limit := size_limit
    keep_empty := size_limit == 0
    freeKeys := ∅
    free := fun _ => ∅
    containers := fun _ => none }

/-- `DockerContainerPool.register_container(runtime, container_id, claimed)`:
no-op when `_keep_empty`; otherwise ensure the class has a (possibly empty)
free set, add the id to it when not claimed, and record the membership. -/
def register_container (p : PoolState) (runtime container_id : String)
    (claimed : Bool) : PoolState :=
  if p.keep_empty then p
  else
    let p1 := if runtime ∈ p.freeKeys then p
      else { p with
        freeKeys := insert runtime p.freeKeys
        free := fun r => if r = runtime then ∅ else p.free r }
    let p2 := if claimed then p1
      else { p1 with
        free := fun r => if r = runtime then insert container_id (p1.free r)
          else p1.free r }
    { p2 with
      containers := fun i => if i = container_id then some runtime
        else p2.containers i }

/-- `DockerContainerPool.deregister_container(container_id)`: look up the
recorded runtime (early return when falsy, i.e. absent id or empty-string
class), discard the id from that class's free set and delete the membership
entry. The free-set lookup would raise `KeyError` when the class is not a
dict key; the raise aborts before any mutation, leaving the state unchanged. -/
def deregister_container (p : PoolState) (container_id : String) : PoolState :=
  match p.containers container_id with
  | none => p
  | some runtime =>
    if runtime = "" then p
    else if runtime ∈ p.freeKeys then
      { p with
        free := fun r => if r = runtime then (p.free runtime).erase container_id
          else p.free r
        containers := fun i => if i = container_id then none
          else p.containers i }
    else p

/-- `DockerContainerPool.has_available_containers(runtime)`: returns whether
the class's free set is non-empty; `none` models the uncaught `KeyError`
when the class was never a key of `_free_containers`. -/
def has_available_containers (p : PoolState) (runtime : String) : Option Bool :=
  if runtime ∈ p.freeKeys then some (0 < (p.free runtime).card) else none

/-- `DockerContainerPool.claim_container(runtime)` result relation:
`set.pop` returns an arbitrary member when the class is a key with a
non-empty set; both the missing-key and the empty-set `KeyError` are caught
and turned into a `None` result. -/
def claimCanReturn (p : PoolState) (runtime : String) : Option String → Bool
  | some i => decide (runtime ∈ p.freeKeys) && decide (i ∈ p.free runtime)
  | none => decide (runtime ∉ p.freeKeys) || decide (p.free runtime = ∅)

/-- State after `claim_container(runtime)` produced result `r`: the popped
element is removed from the class's free set; a `None` result leaves the
state unchanged. -/
def pool_after_claim (p : PoolState) (runtime : String) :
    Option String → PoolState
  | some i =>
    { p with
      free := fun r => if r = runtime then (p.free runtime).erase i
        else p.free r }
  | none => p

/-- `DockerContainerPool.release_container(container_id)`: look up the
recorded runtime (early return when falsy), then add the id back to that
class's free set. The free-set lookup would raise `KeyError` when the class
is not a dict key; the raise aborts before any mutation. -/
def release_container (p : PoolState) (container_id : String) : PoolState :=
  match p.containers container_id with
  | none => p
  | some runtime =>
    if runtime = "" then p
    else if runtime ∈ p.freeKeys then
      { p with
        free := fun r => if r = runtime then insert container_id (p.free runtime)
          else p.free r }
    else p

/-- `release_container` lifted to the optional id held by a handle
(`container.id` may be Python `None`, which is never a key of
`_containers`, so the call returns without effect). -/
def release_container_opt (p : PoolState) : Option String → PoolState
  | none => p
  | some i => release_container p i

/-- `deregister_container` lifted to the optional id held by a handle
(a `None` id is never a key of `_containers`, so the call is a no-op). -/
def deregister_container_opt (p : PoolState) : Option String → PoolState
  | none => p
  | some i => deregister_container p i

/-!
The `ContainerManager` orchestration. The two external collaborators are not
part of manager.py: image availability and pull success are the booleans the
Docker daemon would answer, and the Runtime Handle (the `Container` object,
whose class lives outside this file) is modelled from the spec below.
-/

/-- Python `str.startswith`: character-level prefix test. -/
def startswith (pre s : String) : Bool := List.isPrefixOf pre.data s.data

/-- Modelled from the spec: the Runtime Handle collaborator (the `Container`
class is not part of manager.py). `running_of i` / `created_of i` are the
handle's `is_running()` / `is_created()` answers for an assigned id `i`; a
handle whose id has been cleared has no underlying instance, so both report
false (the spec creates a fresh handle exactly when "no usable existing
handle/id was obtained"). `fresh_id` is the id the runtime assigns on
`create()`. -/
structure HandleWorld where
  running_of : String → Bool
  created_of : String → Bool
  fresh_id : String

/-- The handle state `run` manipulates: its image and runtime descriptors and
its currently assigned id (`none` is Python `None`). -/
structure ContainerSpec where
  image : String
  runtime : String
  id : Option String

/-- `container.is_running()` as `run` observes it: false for an id-less
handle, otherwise the collaborator's answer for the assigned id. -/
def isRunningHandle (w : HandleWorld) : Option String → Bool
  | none => false
  | some i => w.running_of i

/-- `container.is_created()` as `run` observes it: false for an id-less
handle, otherwise the collaborator's answer for the assigned id. -/
def isCreatedHandle (w : HandleWorld) : Option String → Bool
  | none => false
  | some i => w.created_of i

/-- Typed errors `run` can raise: `ValueError` on `warm=True`, and
`DockerImagePullFailedException` when the image is neither local nor
pullable. -/
inductive RunError where
  | invalidUsage
  | imageUnavailable
deriving DecidableEq, Repr

/-- Observable calls `run`/`stop` make, in order, on the pool and on the
handle. -/
inductive Event where
  | pullAttempt
  | poolClaim
  | poolDeregister (i : Option String)
  | handleDelete
  | handleCreate
  | handleBootstrap
  | poolRegister (i : String)
  | handleStart
deriving DecidableEq, Repr

/-- State of a `ContainerManager` instance. -/
structure ManagerState where
  skip_pull_image : Bool
  container_pool_size_limit : Nat
  container_pool : PoolState

/-- `ContainerManager.__init__(..., skip_pull_image)`:
`_container_pool_size_limit = 0 if not skip_pull_image else _DEFAULT_POOL_LIMIT`,
and the pool is constructed with that limit. -/
def ContainerManager.init (skip_pull_image : Bool) : ManagerState :=
  { skip_pull_image := skip_pull_image
    container_pool_size_limit :=
      if !skip_pull_image then 0 else DEFAULT_POOL_LIMIT
    container_pool := DockerContainerPool.init
      (if !skip_pull_image then 0 else DEFAULT_POOL_LIMIT) }

/-- What one `run` call produced: the raised error if any, the pool state
after the call, the emitted collaborator calls in order, and the handle's
final state. -/
structure RunOutcome where
  result : Option RunError
  pool : PoolState
  events : List Event
  container : ContainerSpec

/-- `ContainerManager.run(container, input_data, warm, ...)` transcribed from
manager.py. `has_img` is `self.has_image(image_name)`, `pull_ok` says
whether `self.pull_image` would succeed, and `claimed` is the result the
pool's `claim_container` produced (constrained by `claimCanReturn` in the
theorems). Steps: raise on `warm`; skip the pull iff the image is local and
pulls are skipped, or the image name starts with `samcli/lambda`; a failed
pull is fatal only when the image is not local; claim an id and assign it to
the handle; when the handle does not report running, deregister the id,
delete the handle and clear its id; when the handle does not report created,
create it (the runtime assigns a fresh id), bootstrap it and register the id
as claimed; finally start the handle. -/
def ContainerManager.run (m : ManagerState) (w : HandleWorld)
    (has_img pull_ok : Bool) (container : ContainerSpec)
    (claimed : Option String) (warm : Bool) : RunOutcome :=
  if warm then
    { result := some RunError.invalidUsage
      pool := m.container_pool
      events := []
      container := container }
  else
    let image_name := container.image
    let is_image_local := has_img
    let skip_the_pull := (is_image_local && m.skip_pull_image)
      || startswith "samcli/lambda" image_name
    let ev0 : List Event := if skip_the_pull then [] else [Event.pullAttempt]
    if !skip_the_pull && !pull_ok && !is_image_local then
      { result := some RunError.imageUnavailable
        pool := m.container_pool
        events := ev0
        container := container }
    else
      let pool1 := pool_after_claim m.container_pool container.runtime claimed
      let c1 : ContainerSpec := { container with id := claimed }
      let ev1 := ev0 ++ [Event.poolClaim]
      let cleanup :=
        if !isRunningHandle w c1.id then
          (deregister_container_opt pool1 c1.id,
           { c1 with id := none },
           ev1 ++ [Event.poolDeregister c1.id, Event.handleDelete])
        else (pool1, c1, ev1)
      let pool2 := cleanup.1
      let c2 := cleanup.2.1
      let ev2 := cleanup.2.2
      let creation :=
        if !isCreatedHandle w c2.id then
          (register_container pool2 c2.runtime w.fresh_id true,
           { c2 with id := some w.fresh_id },
           ev2 ++ [Event.handleCreate, Event.handleBootstrap,
                   Event.poolRegister w.fresh_id])
        else (pool2, c2, ev2)
      { result := none
        pool := creation.1
        events := creation.2.2 ++ [Event.handleStart]
        container := creation.2.1 }

/-- `ContainerManager.stop(container)`: release the handle's id back to the
pool, and delete the handle when the pool size limit is 0. Returns the pool
after the call and the handle calls made. -/
def ContainerManager.stop (m : ManagerState) (container_id : Option String) :
    PoolState × List Event :=
  let pool1 := release_container_opt m.container_pool container_id
  if m.container_pool_size_limit = 0 then (pool1, [Event.handleDelete])
  else (pool1, [])

/-!
Theorems for the claims, in order of the pool-level claims first.
-/

/-- Applies a sequence of `register_container` calls
(runtime, container_id, claimed) to a pool state. -/
def applyRegisters (p : PoolState) : List (String × String × Bool) → PoolState
  | [] => p
  | a :: rest => applyRegisters (register_container p a.1 a.2.1 a.2.2) rest

/-- On a pool whose `_keep_empty` flag is set, `register_container` returns
without touching any state. -/
theorem register_keep_empty_noop (p : PoolState) (h : p.keep_empty = true)
    (runtime container_id : String) (claimed : Bool) :
    register_container p runtime container_id claimed = p := by
  simp [register_container, h]

/-- Any sequence of register calls on a `_keep_empty` pool leaves it
unchanged. -/
theorem applyRegisters_keep_empty_noop (p : PoolState) (h : p.keep_empty = true)
    (l : List (String × String × Bool)) : applyRegisters p l = p := by
  induction l with
  | nil => rfl
  | cons a rest ih =>
    rw [applyRegisters, register_keep_empty_noop p h]
    exact ih

/-- C10: constructing a `ContainerManager` derives the pool size limit from
`skip_pull_image`: 0 when pulls are not skipped (so `stop` always deletes
the handle), `_DEFAULT_POOL_LIMIT = 4` when they are; the pool is built
with that limit. -/
theorem C10_pool_size_limit_from_skip_pull :
    (∀ b : Bool, (ContainerManager.init b).container_pool_size_limit =
      if b then 4 else 0) ∧
    (∀ b : Bool, (ContainerManager.init b).container_pool =
      DockerContainerPool.init (if b then 4 else 0)) ∧
    (∀ (m : ManagerState) (container_id : Option String),
      m.container_pool_size_limit = 0 →
        (ContainerManager.stop m container_id).2 = [Event.handleDelete]) := by
  refine ⟨fun b => by cases b <;> rfl, fun b => by cases b <;> rfl, ?_⟩
  intro m container_id h
  simp [ContainerManager.stop, h]

/-- C10 witness: the default construction (`skip_pull_image = false`) gets
limit 0 and its `stop` deletes the handle. -/
theorem C10_witness :
    (ContainerManager.init false).container_pool_size_limit = 0 ∧
    (ContainerManager.stop (ContainerManager.init false) (some "c1")).2 =
      [Event.handleDelete] :=
  ⟨C10_pool_size_limit_from_skip_pull.1 false,
   C10_pool_size_limit_from_skip_pull.2.2 (ContainerManager.init false)
     (some "c1") rfl⟩

/-- C9: `run` with `warm = true` raises `ValueError` immediately: no event is
emitted (no image check, no pool operation, no handle call) and the pool is
unchanged, for every manager, world, image state, handle and claim result. -/
theorem C9_warm_raises_immediately (m : ManagerState) (w : HandleWorld)
    (has_img pull_ok : Bool) (container : ContainerSpec)
    (claimed : Option String) :
    (ContainerManager.run m w has_img pull_ok container claimed true).result =
      some RunError.invalidUsage ∧
    (ContainerManager.run m w has_img pull_ok container claimed true).events = [] ∧
    (ContainerManager.run m w has_img pull_ok container claimed true).pool =
      m.container_pool ∧
    (ContainerManager.run m w has_img pull_ok container claimed true).container =
      container := by
  refine ⟨rfl, rfl, rfl, rfl⟩

/-- C2 counterexample: on a pool constructed with size limit 0, after a
register call `has_available_containers` does not return `false` for the
registered class — it raises `KeyError` (modelled as `none`), because
`register_container` returned early and never created the class's key. -/
theorem C2_counterexample :
    has_available_containers
      (register_container (DockerContainerPool.init 0) "python3.9" "c1" false)
      "python3.9" = none ∧
    has_available_containers
      (register_container (DockerContainerPool.init 0) "python3.9" "c1" false)
      "python3.9" ≠ some false := by
  refine ⟨by decide, by decide⟩

/-- C2 amended: with size limit 0, any sequence of register calls leaves the
pool in its initial state (register never adds anything), and
`has_available_containers` raises `KeyError` (returns no boolean) for every
class, rather than returning `false`. -/
theorem C2_size_zero_register_noop (l : List (String × String × Bool))
    (c : String) :
    applyRegisters (DockerContainerPool.init 0) l = DockerContainerPool.init 0 ∧
    has_available_containers (applyRegisters (DockerContainerPool.init 0) l) c
      = none := by
  have h0 : (DockerContainerPool.init 0).keep_empty = true := rfl
  have h := applyRegisters_keep_empty_noop (DockerContainerPool.init 0) h0 l
  refine ⟨h, ?_⟩
  rw [h]
  simp [has_available_containers, DockerContainerPool.init]

/-- C7: on a fresh default-limit pool, after
`register_container(c, i, claimed=False)` every result `claim_container(c)`
may produce is exactly `i`, and after that claim every result a second
`claim_container(c)` may produce is "none available". -/
theorem C7_register_then_claim (c i : String) :
    (∀ r, claimCanReturn
        (register_container (DockerContainerPool.init DEFAULT_POOL_LIMIT) c i false)
        c r = true → r = some i) ∧
    (∀ r2, claimCanReturn
        (pool_after_claim
          (register_container (DockerContainerPool.init DEFAULT_POOL_LIMIT) c i false)
          c (some i)) c r2 = true → r2 = none) := by
  constructor
  · intro r h
    cases r with
    | none =>
      simp [claimCanReturn, register_container, DockerContainerPool.init,
        DEFAULT_POOL_LIMIT] at h
    | some j =>
      simp [claimCanReturn, register_container, DockerContainerPool.init,
        DEFAULT_POOL_LIMIT] at h
      simp [h]
  · intro r2 h
    cases r2 with
    | none => rfl
    | some j =>
      simp [claimCanReturn, pool_after_claim, register_container,
        DockerContainerPool.init, DEFAULT_POOL_LIMIT] at h

/-- C7 witness at class `"python3.9"` and id `"abc"`. -/
theorem C7_witness :
    claimCanReturn
      (register_container (DockerContainerPool.init DEFAULT_POOL_LIMIT)
        "python3.9" "abc" false) "python3.9" (some "abc") = true ∧
    (some "abc" : Option String) = some "abc" ∧
    (none : Option String) = none :=
  ⟨by decide,
   (C7_register_then_claim "python3.9" "abc").1 (some "abc") (by decide),
   (C7_register_then_claim "python3.9" "abc").2 none (by decide)⟩

/-- Pool with id `"a"` free and id `"b"` claimed, both of class
`"python3.9"`. -/
def C8pool : PoolState :=
  register_container
    (register_container (DockerContainerPool.init DEFAULT_POOL_LIMIT)
      "python3.9" "a" false)
    "python3.9" "b" true

/-- C8 counterexample: `release_container("b")` followed by
`claim_container("python3.9")` need not return `"b"`: `set.pop` may
legitimately return the other free id `"a"`, so the round trip does not
guarantee the same id comes back when the free set holds other ids. -/
theorem C8_counterexample :
    C8pool.containers "b" = some "python3.9" ∧
    claimCanReturn (release_container C8pool "b") "python3.9" (some "a") = true ∧
    (some "a" : Option String) ≠ some "b" := by
  refine ⟨by decide, by decide, by decide⟩

/-- C8 amended: when the free set of the id's recorded class is empty at
release time (and the class is a proper key), `release_container(i)`
followed by `claim_container(c)` returns exactly `i`: every result the
claim may produce is `some i`. -/
theorem C8_release_then_claim_roundtrip (p : PoolState) (i c : String)
    (hm : p.containers i = some c) (hne : c ≠ "") (hk : c ∈ p.freeKeys)
    (hempty : p.free c = ∅) :
    ∀ r, claimCanReturn (release_container p i) c r = true → r = some i := by
  intro r h
  cases r with
  | none =>
    simp [claimCanReturn, release_container, hm, hne, hk, hempty] at h
  | some j =>
    simp [claimCanReturn, release_container, hm, hne, hk, hempty] at h
    simp [h]

/-- C8 witness: class `"python3.9"`, id `"b"` claimed with nothing free. -/
theorem C8_witness :
    claimCanReturn
      (release_container
        (register_container (DockerContainerPool.init DEFAULT_POOL_LIMIT)
          "python3.9" "b" true) "b")
      "python3.9" (some "b") = true ∧
    (some "b" : Option String) = some "b" :=
  ⟨by decide,
   C8_release_then_claim_roundtrip
     (register_container (DockerContainerPool.init DEFAULT_POOL_LIMIT)
       "python3.9" "b" true)
     "b" "python3.9" (by decide) (by decide) (by decide) (by decide)
     (some "b") (by decide)⟩

/-- C4: when the image is absent locally (`has_image` false), its name is not
`samcli/lambda`-prefixed (so a pull is attempted) and the pull fails, `run`
raises `DockerImagePullFailedException`: the only emitted call is the pull
attempt — no handle is created, bootstrapped, registered or started, no
pool operation runs, and the pool state is unchanged. -/
theorem C4_pull_failure_without_local_image_is_fatal (m : ManagerState)
    (w : HandleWorld) (container : ContainerSpec) (claimed : Option String)
    (hpre : startswith "samcli/lambda" container.image = false)
    (_hcl : claimCanReturn m.container_pool container.runtime claimed = true) :
    (ContainerManager.run m w false false container claimed false).result =
      some RunError.imageUnavailable ∧
    (ContainerManager.run m w false false container claimed false).pool =
      m.container_pool ∧
    (ContainerManager.run m w false false container claimed false).events =
      [Event.pullAttempt] ∧
    Event.handleCreate ∉
      (ContainerManager.run m w false false container claimed false).events ∧
    Event.handleBootstrap ∉
      (ContainerManager.run m w false false container claimed false).events ∧
    Event.handleStart ∉
      (ContainerManager.run m w false false container claimed false).events ∧
    Event.poolClaim ∉
      (ContainerManager.run m w false false container claimed false).events ∧
    (∀ i, Event.poolRegister i ∉
      (ContainerManager.run m w false false container claimed false).events) := by
  simp [ContainerManager.run, hpre]

/-- C4 witness: image `"foo:latest"` absent, pull failing, empty pool. -/
theorem C4_witness :
    startswith "samcli/lambda" "foo:latest" = false ∧
    claimCanReturn (ContainerManager.init true).container_pool "python3.9" none
      = true ∧
    (ContainerManager.run (ContainerManager.init true)
      ⟨fun _ => true, fun _ => true, "fresh1"⟩ false false
      ⟨"foo:latest", "python3.9", none⟩ none false).result =
      some RunError.imageUnavailable :=
  ⟨by decide, by decide,
   (C4_pull_failure_without_local_image_is_fatal (ContainerManager.init true)
     ⟨fun _ => true, fun _ => true, "fresh1"⟩
     ⟨"foo:latest", "python3.9", none⟩ none (by decide) (by decide)).1⟩

/-- C5: in a `run` invocation (past the `warm` guard), the pull attempt is
absent from the emitted calls exactly when the image is local and the
manager skips pulls, or the image name starts with `samcli/lambda`; in
every other case the pull is attempted. -/
theorem C5_pull_skipped_iff (m : ManagerState) (w : HandleWorld)
    (has_img pull_ok : Bool) (container : ContainerSpec)
    (claimed : Option String)
    (_hcl : claimCanReturn m.container_pool container.runtime claimed = true) :
    (Event.pullAttempt ∉
      (ContainerManager.run m w has_img pull_ok container claimed false).events)
    ↔ ((has_img && m.skip_pull_image)
        || startswith "samcli/lambda" container.image) = true := by
  by_cases hs : ((has_img && m.skip_pull_image)
      || startswith "samcli/lambda" container.image) = true
  · simp only [ContainerManager.run, hs, eq_self_iff_true, iff_true]
    by_cases hrun : isRunningHandle w claimed = true
    · by_cases hcr : isCreatedHandle w claimed = true
      · simp [hrun, hcr]
      · simp [hrun, hcr]
    · simp [hrun, isCreatedHandle]
  · simp only [hs, iff_false, not_not]
    rw [Bool.not_eq_true] at hs
    by_cases hfatal : (!pull_ok && !has_img) = true
    · simp [ContainerManager.run, hs, hfatal]
    · by_cases hrun : isRunningHandle w claimed = true
      · by_cases hcr : isCreatedHandle w claimed = true
        · simp [ContainerManager.run, hs, hfatal, hrun, hcr]
        · simp [ContainerManager.run, hs, hfatal, hrun, hcr]
      · simp [ContainerManager.run, hs, hfatal, hrun, isCreatedHandle]

/-- C5 witness: local image with pulls skipped (pull attempt absent), and the
same invocation with pulls not skipped (pull attempt present). -/
theorem C5_witness :
    claimCanReturn (ContainerManager.init true).container_pool "python3.9" none
      = true ∧
    (Event.pullAttempt ∉
      (ContainerManager.run (ContainerManager.init true)
        ⟨fun _ => true, fun _ => true, "fresh1"⟩ true true
        ⟨"foo:latest", "python3.9", none⟩ none false).events) :=
  ⟨by decide,
   (C5_pull_skipped_iff (ContainerManager.init true)
     ⟨fun _ => true, fun _ => true, "fresh1"⟩ true true
     ⟨"foo:latest", "python3.9", none⟩ none (by decide)).mpr (by decide)⟩

/-- C1 counterexample: with an empty pool the claim legitimately produces
"none available", yet `run` still performs the stale-handle cleanup — it
calls `deregister_container` (with `None`) and `container.delete()` —
because the `is_running` check is not guarded on a claimed id having been
returned. -/
theorem C1_counterexample :
    claimCanReturn (ContainerManager.init true).container_pool "python3.9" none
      = true ∧
    Event.poolDeregister none ∈
      (ContainerManager.run (ContainerManager.init true)
        ⟨fun _ => true, fun _ => true, "fresh1"⟩ true true
        ⟨"foo:latest", "python3.9", none⟩ none false).events ∧
    Event.handleDelete ∈
      (ContainerManager.run (ContainerManager.init true)
        ⟨fun _ => true, fun _ => true, "fresh1"⟩ true true
        ⟨"foo:latest", "python3.9", none⟩ none false).events := by
  refine ⟨by decide, by decide, by decide⟩

/-- C1 amended: the stale-handle cleanup is not conditioned on the claim
having returned an id: `run` checks `is_running` unconditionally, and when
the claim produced "none available" the id-less handle reports not running,
so `run` still calls `deregister_container(None)` — a no-op on the pool —
and `container.delete()` before proceeding to create a fresh handle. -/
theorem C1_cleanup_runs_even_when_claim_returns_none (m : ManagerState)
    (w : HandleWorld) (has_img pull_ok : Bool) (container : ContainerSpec)
    (_hcl : claimCanReturn m.container_pool container.runtime none = true)
    (hnf : (!((has_img && m.skip_pull_image)
        || startswith "samcli/lambda" container.image)
      && !pull_ok && !has_img) = false) :
    Event.poolDeregister none ∈
      (ContainerManager.run m w has_img pull_ok container none false).events ∧
    Event.handleDelete ∈
      (ContainerManager.run m w has_img pull_ok container none false).events ∧
    Event.handleCreate ∈
      (ContainerManager.run m w has_img pull_ok container none false).events ∧
    Event.handleStart ∈
      (ContainerManager.run m w has_img pull_ok container none false).events ∧
    deregister_container_opt
        (pool_after_claim m.container_pool container.runtime none) none =
      pool_after_claim m.container_pool container.runtime none := by
  refine ⟨?_, ?_, ?_, ?_, rfl⟩ <;>
  · cases has_img <;> cases pull_ok <;>
      cases hsw : startswith "samcli/lambda" container.image <;>
      simp [ContainerManager.run, isRunningHandle, isCreatedHandle, hsw]
        at hnf ⊢

/-- C1 amended witness: empty pool, local image, pulls skipped. -/
theorem C1_witness :
    claimCanReturn (ContainerManager.init true).container_pool "python3.9" none
      = true ∧
    Event.handleCreate ∈
      (ContainerManager.run (ContainerManager.init true)
        ⟨fun _ => false, fun _ => false, "fresh2"⟩ true true
        ⟨"bar:latest", "python3.9", none⟩ none false).events :=
  ⟨by decide,
   (C1_cleanup_runs_even_when_claim_returns_none (ContainerManager.init true)
     ⟨fun _ => false, fun _ => false, "fresh2"⟩ true true
     ⟨"bar:latest", "python3.9", none⟩ (by decide) (by decide)).2.2.1⟩

/-!
Claim C6: the free-set/membership invariant over all reachable pool states.
-/

/-- The invariant: every id in a class's free set has that class recorded in
the membership index. -/
def FreeSubsetInv (p : PoolState) : Prop :=
  ∀ c i, i ∈ p.free c → p.containers i = some c

/-- One pool operation. The register step carries the claim's side condition
that no id is registered under two different classes: the id is either
unknown or already recorded under the same class. The claim step covers
every result `set.pop` may produce. -/
inductive PoolStep : PoolState → PoolState → Prop where
  | register (p : PoolState) (c i : String) (claimed : Bool)
      (h : p.containers i = none ∨ p.containers i = some c) :
      PoolStep p (register_container p c i claimed)
  | deregister (p : PoolState) (i : String) :
      PoolStep p (deregister_container p i)
  | claim (p : PoolState) (c : String) (r : Option String)
      (h : claimCanReturn p c r = true) :
      PoolStep p (pool_after_claim p c r)
  | release (p : PoolState) (i : String) :
      PoolStep p (release_container p i)

/-- Pool states reachable from a freshly constructed pool. -/
def PoolReachable (size_limit : Nat) (p : PoolState) : Prop :=
  Relation.ReflTransGen PoolStep (DockerContainerPool.init size_limit) p


/-- Membership in a free set after `register_container` (non-degenerate
pool): the registered id lands in the class's free set when not claimed;
previous members survive except that a class not yet among the dict keys
starts from a fresh empty set. -/
theorem register_container_free_mem (p : PoolState) (c i : String)
    (claimed : Bool) (hke : p.keep_empty = false) (c' i' : String) :
    i' ∈ (register_container p c i claimed).free c' ↔
      ((claimed = false ∧ c' = c ∧ i' = i) ∨
       (i' ∈ p.free c' ∧ (c' = c → c ∈ p.freeKeys))) := by
  cases claimed <;> by_cases hkey : c ∈ p.freeKeys <;> by_cases hcc : c' = c <;>
    simp [register_container, hke, hkey, hcc]

/-- The membership index after `register_container` (non-degenerate pool):
the registered id maps to the class, other ids are untouched. -/
theorem register_container_containers (p : PoolState) (c i : String)
    (claimed : Bool) (hke : p.keep_empty = false) (i' : String) :
    (register_container p c i claimed).containers i' =
      if i' = i then some c else p.containers i' := by
  cases claimed <;> by_cases hkey : c ∈ p.freeKeys <;>
    simp [register_container, hke, hkey]

/-- `register_container` preserves the invariant when the id is not being
re-registered under a different class. -/
theorem freeSubsetInv_register (p : PoolState) (hp : FreeSubsetInv p)
    (c i : String) (claimed : Bool)
    (h : p.containers i = none ∨ p.containers i = some c) :
    FreeSubsetInv (register_container p c i claimed) := by
  intro c' i' hmem
  by_cases hke : p.keep_empty
  · simp only [register_container, if_pos hke] at hmem ⊢
    exact hp c' i' hmem
  · rw [Bool.not_eq_true] at hke
    rw [register_container_free_mem p c i claimed hke] at hmem
    rw [register_container_containers p c i claimed hke]
    rcases hmem with ⟨_, hcc, hii⟩ | ⟨hold, _⟩
    · subst hcc
      simp [hii]
    · by_cases hii : i' = i
      · have hpi := hp c' i' hold
        rw [hii] at hpi
        rcases h with h | h
        · rw [hpi] at h
          exact Option.noConfusion h
        · rw [hpi] at h
          have hcceq : c' = c := Option.some.inj h
          rw [if_pos hii, hcceq]
      · rw [if_neg hii]
        exact hp c' i' hold

/-- `deregister_container` preserves the invariant. -/
theorem freeSubsetInv_deregister (p : PoolState) (hp : FreeSubsetInv p)
    (i : String) : FreeSubsetInv (deregister_container p i) := by
  intro c' i' hmem
  cases hcnt : p.containers i with
  | none =>
    simp only [deregister_container, hcnt] at hmem ⊢
    exact hp c' i' hmem
  | some r =>
    by_cases hr0 : r = ""
    · simp only [deregister_container, hcnt, if_pos hr0] at hmem ⊢
      exact hp c' i' hmem
    · by_cases hrk : r ∈ p.freeKeys
      · simp only [deregister_container, hcnt, if_neg hr0, if_pos hrk] at hmem ⊢
        by_cases hcc : c' = r
        · subst hcc
          simp only [eq_self_iff_true, if_true, ite_true, Finset.mem_erase]
            at hmem
          rw [if_neg hmem.1]
          exact hp c' i' hmem.2
        · simp only [if_neg hcc] at hmem
          have hpi := hp c' i' hmem
          have hii : ¬ i' = i := by
            intro hii
            rw [hii, hcnt] at hpi
            exact hcc (Option.some.inj hpi).symm
          rw [if_neg hii]
          exact hpi
      · simp only [deregister_container, hcnt, if_neg hr0, if_neg hrk]
          at hmem ⊢
        exact hp c' i' hmem

/-- `pool_after_claim` preserves the invariant: claiming only removes from a
free set. -/
theorem freeSubsetInv_claim (p : PoolState) (hp : FreeSubsetInv p)
    (c : String) (r : Option String) :
    FreeSubsetInv (pool_after_claim p c r) := by
  intro c' i' hmem
  cases r with
  | none => exact hp c' i' hmem
  | some j =>
    simp only [pool_after_claim] at hmem ⊢
    by_cases hcc : c' = c
    · subst hcc
      simp only [eq_self_iff_true, if_true, ite_true] at hmem
      exact hp c' i' (Finset.mem_of_mem_erase hmem)
    · simp only [if_neg hcc] at hmem
      exact hp c' i' hmem

/-- `release_container` preserves the invariant: the id is re-inserted into
exactly the free set of its recorded class. -/
theorem freeSubsetInv_release (p : PoolState) (hp : FreeSubsetInv p)
    (i : String) : FreeSubsetInv (release_container p i) := by
  intro c' i' hmem
  cases hcnt : p.containers i with
  | none =>
    simp only [release_container, hcnt] at hmem ⊢
    exact hp c' i' hmem
  | some r =>
    by_cases hr0 : r = ""
    · simp only [release_container, hcnt, if_pos hr0] at hmem ⊢
      exact hp c' i' hmem
    · by_cases hrk : r ∈ p.freeKeys
      · simp only [release_container, hcnt, if_neg hr0, if_pos hrk] at hmem ⊢
        by_cases hcc : c' = r
        · subst hcc
          simp only [eq_self_iff_true, if_true, ite_true, Finset.mem_insert]
            at hmem
          rcases hmem with hmem | hmem
          · rw [hmem]
            exact hcnt
          · exact hp c' i' hmem
        · simp only [if_neg hcc] at hmem
          exact hp c' i' hmem
      · simp only [release_container, hcnt, if_neg hr0, if_neg hrk] at hmem ⊢
        exact hp c' i' hmem

/-- C6: every pool state reachable from a fresh pool by register /
deregister / claim / release steps — with no id registered under two
different classes — satisfies the invariant: each class's free set is a
subset of the ids whose membership index records that class. -/
theorem C6_free_subset_membership (size_limit : Nat) (p : PoolState)
    (h : PoolReachable size_limit p) : FreeSubsetInv p := by
  induction h with
  | refl =>
    intro c i hmem
    simp [DockerContainerPool.init] at hmem
  | tail _ hstep ih =>
    cases hstep with
    | register c i claimed hg => exact freeSubsetInv_register _ ih c i claimed hg
    | deregister i => exact freeSubsetInv_deregister _ ih i
    | claim c r _ => exact freeSubsetInv_claim _ ih c r
    | release i => exact freeSubsetInv_release _ ih i

/-- C6 witness: a concrete reachable state (one register) where the
invariant yields the membership fact for the freshly freed id. -/
theorem C6_witness :
    (register_container (DockerContainerPool.init 4) "python3.9" "a" false).containers
      "a" = some "python3.9" :=
  C6_free_subset_membership 4
    (register_container (DockerContainerPool.init 4) "python3.9" "a" false)
    (Relation.ReflTransGen.single
      (PoolStep.register (DockerContainerPool.init 4) "python3.9" "a" false
        (Or.inl rfl)))
    "python3.9" "a" (by decide)
